import Mathlib

/-!
# Verification of the Maestro Session Process Supervisor

A shallow embedding, in Lean 4, of the status-routing and command-validation
layer of the Maestro repository:

* `src-tauri/src/core/status_server.rs` — the Status Server: project-path
  hashing (`generate_project_hash`), port scanning (`find_and_bind_port` /
  `StatusServer::start`), the session→project registry
  (`register_session` / `unregister_session`), and the HTTP handler
  (`handle_status`);
* `src-tauri/src/commands/terminal.rs` — the UI-facing command layer
  (`spawn_shell`, `resize_pty`, `kill_session`);
* `maestro-mcp-server/src/status_reporter.rs` — the helper process's
  `StatusReporter::report_status`.

Machine integers (`u16`, `u32`) are embedded as `Nat` with explicit
`% 2^32` where the Rust code can wrap; effects (binding a TCP port,
sending an HTTP request, the process manager, the filesystem) are passed
in explicitly as functions so that every embedded operation is a pure,
executable Lean function.
-/

set_option maxRecDepth 100000

namespace Maestro

/-! ## SHA-256 (the `sha2` crate as used by `generate_project_hash`)

`Sha256::digest` over a byte string, embedded over `List Nat` with every
word reduced modulo `2^32`.  Bytes are `Nat` values below 256. -/

/-- 32-bit modular addition: `a + b` reduced modulo `2^32`. -/
def add32 (a b : Nat) : Nat := (a + b) % 4294967296

/-- Right rotation of a 32-bit word by `n` bits. -/
def rotr32 (n x : Nat) : Nat := ((x >>> n) ||| (x <<< (32 - n))) % 4294967296

/-- SHA-256 `Ch(x,y,z) = (x ∧ y) ⊕ (¬x ∧ z)`; bitwise not on 32 bits is
xor with `2^32 - 1`. -/
def ch32 (x y z : Nat) : Nat := (x &&& y) ^^^ ((x ^^^ 4294967295) &&& z)

/-- SHA-256 `Maj(x,y,z)`. -/
def maj32 (x y z : Nat) : Nat := (x &&& y) ^^^ (x &&& z) ^^^ (y &&& z)

/-- SHA-256 Σ₀. -/
def bigSigma0 (x : Nat) : Nat := rotr32 2 x ^^^ rotr32 13 x ^^^ rotr32 22 x

/-- SHA-256 Σ₁. -/
def bigSigma1 (x : Nat) : Nat := rotr32 6 x ^^^ rotr32 11 x ^^^ rotr32 25 x

/-- SHA-256 σ₀. -/
def smallSigma0 (x : Nat) : Nat := rotr32 7 x ^^^ rotr32 18 x ^^^ (x >>> 3)

/-- SHA-256 σ₁. -/
def smallSigma1 (x : Nat) : Nat := rotr32 17 x ^^^ rotr32 19 x ^^^ (x >>> 10)

/-- The 64 SHA-256 round constants (FIPS 180-4), written in decimal. -/
def K256 : List Nat :=
  [1116352408, 1899447441, 3049323471, 3921009573, 961987163, 1508970993,
   2453635748, 2870763221, 3624381080, 310598401, 607225278, 1426881987,
   1925078388, 2162078206, 2614888103, 3248222580, 3835390401, 4022224774,
   264347078, 604807628, 770255983, 1249150122, 1555081692, 1996064986,
   2554220882, 2821834349, 2952996808, 3210313671, 3336571891, 3584528711,
   113926993, 338241895, 666307205, 773529912, 1294757372, 1396182291,
   1695183700, 1986661051, 2177026350, 2456956037, 2730485921, 2820302411,
   3259730800, 3345764771, 3516065817, 3600352804, 4094571909, 275423344,
   430227734, 506948616, 659060556, 883997877, 958139571, 1322822218,
   1537002063, 1747873779, 1955562222, 2024104815, 2227730452, 2361852424,
   2428436474, 2756734187, 3204031479, 3329325298]

/-- The eight 32-bit words of the SHA-256 working state. -/
structure Hash8 where
  a : Nat
  b : Nat
  c : Nat
  d : Nat
  e : Nat
  f : Nat
  g : Nat
  hh : Nat
deriving DecidableEq

/-- The SHA-256 initial hash value, written in decimal. -/
def initH : Hash8 :=
  ⟨1779033703, 3144134277, 1013904242, 2773480762,
   1359893119, 2600822924, 528734635, 1541459225⟩

/-- One SHA-256 compression round; `wk` is the pair `(Wₜ, Kₜ)`. -/
def roundStep (st : Hash8) (wk : Nat × Nat) : Hash8 :=
  let t1 := add32 (add32 (add32 (add32 st.hh (bigSigma1 st.e)) (ch32 st.e st.f st.g)) wk.2) wk.1
  let t2 := add32 (bigSigma0 st.a) (maj32 st.a st.b st.c)
  ⟨add32 t1 t2, st.a, st.b, st.c, add32 st.d t1, st.e, st.f, st.g⟩

/-- Extend a 16-word message schedule by `n` further words
(`Wₜ = σ₁(Wₜ₋₂) + Wₜ₋₇ + σ₀(Wₜ₋₁₅) + Wₜ₋₁₆`). -/
def extendSchedule : Nat → List Nat → List Nat
  | 0, ws => ws
  | n + 1, ws =>
    let i := ws.length
    let wi := add32 (add32 (smallSigma1 (ws.getD (i - 2) 0)) (ws.getD (i - 7) 0))
                    (add32 (smallSigma0 (ws.getD (i - 15) 0)) (ws.getD (i - 16) 0))
    extendSchedule n (ws ++ [wi])

/-- A big-endian word from a list of bytes. -/
def bytesToWordBE (bs : List Nat) : Nat := bs.foldl (fun acc b => acc * 256 + b) 0

/-- The `numBytes`-byte big-endian encoding of `n`. -/
def toBytesBE (numBytes n : Nat) : List Nat :=
  (List.range numBytes).map (fun i => (n >>> (8 * (numBytes - 1 - i))) % 256)

/-- The sixteen 32-bit big-endian words of one 64-byte block. -/
def blockWords (block : List Nat) : List Nat :=
  (List.range 16).map (fun i => bytesToWordBE ((block.drop (4 * i)).take 4))

/-- SHA-256 compression of one 64-byte block into the running hash. -/
def processBlock (H : Hash8) (block : List Nat) : Hash8 :=
  let ws := extendSchedule 48 (blockWords block)
  let st := (ws.zip K256).foldl roundStep H
  ⟨add32 H.a st.a, add32 H.b st.b, add32 H.c st.c, add32 H.d st.d,
   add32 H.e st.e, add32 H.f st.f, add32 H.g st.g, add32 H.hh st.hh⟩

/-- SHA-256 padding: append `0x80`, zeros to 56 mod 64, then the 8-byte
big-endian bit length. -/
def padMessage (msg : List Nat) : List Nat :=
  let padZeros := (120 - ((msg.length + 1) % 64)) % 64
  msg ++ [128] ++ List.replicate padZeros 0 ++ toBytesBE 8 (msg.length * 8)

/-- Serialize the final hash state as 32 big-endian bytes. -/
def sha256digest (H : Hash8) : List Nat :=
  toBytesBE 4 H.a ++ toBytesBE 4 H.b ++ toBytesBE 4 H.c ++ toBytesBE 4 H.d ++
  toBytesBE 4 H.e ++ toBytesBE 4 H.f ++ toBytesBE 4 H.g ++ toBytesBE 4 H.hh

/-- The SHA-256 digest (32 bytes) of a byte string. -/
def sha256 (msg : List Nat) : List Nat :=
  let padded := padMessage msg
  let blocks := (List.range (padded.length / 64)).map (fun i => (padded.drop (64 * i)).take 64)
  sha256digest (blocks.foldl processBlock initH)

/-- Lowercase hex digit for a value below 16, as `hex::encode` produces. -/
def hexDigitChar (n : Nat) : Char := if n < 10 then Char.ofNat (48 + n) else Char.ofNat (87 + n)

/-- The character list of the lowercase hex encoding of a byte list. -/
def hexChars : List Nat → List Char
  | [] => []
  | b :: bs => hexDigitChar (b / 16) :: hexDigitChar (b % 16) :: hexChars bs

/-- `hex::encode`: the lowercase hex string of a byte list. -/
def hexEncode (bs : List Nat) : String := String.mk (hexChars bs)

/-- The UTF-8 encoding of one character (Rust `str::as_bytes` is UTF-8). -/
def utf8Bytes (c : Char) : List Nat :=
  let n := c.toNat
  if n < 128 then [n]
  else if n < 2048 then [192 ||| (n >>> 6), 128 ||| (n &&& 63)]
  else if n < 65536 then
    [224 ||| (n >>> 12), 128 ||| ((n >>> 6) &&& 63), 128 ||| (n &&& 63)]
  else
    [240 ||| (n >>> 18), 128 ||| ((n >>> 12) &&& 63), 128 ||| ((n >>> 6) &&& 63), 128 ||| (n &&& 63)]

/-- The UTF-8 bytes of a string (`project_path.as_bytes()`). -/
def strBytes (s : String) : List Nat := s.data.foldr (fun c acc => utf8Bytes c ++ acc) []

/-- `StatusServer::generate_project_hash` (status_server.rs:72-77): SHA-256
of the argument's bytes, first 6 bytes, lowercase hex — 12 characters. -/
def generate_project_hash (project_path : String) : String :=
  hexEncode ((sha256 (strBytes project_path)).take 6)

/-- FIPS 180-4 test vector: the digest of the empty message. -/
theorem sha256_vector_empty :
    sha256 [] = [227, 176, 196, 66, 152, 252, 28, 20, 154, 251, 244, 200, 153, 111, 185, 36,
                 39, 174, 65, 228, 100, 155, 147, 76, 164, 149, 153, 27, 120, 82, 184, 85] := by
  decide

/-- FIPS 180-4 test vector: the digest of `"abc"`. -/
theorem sha256_vector_abc :
    sha256 [97, 98, 99] = [186, 120, 22, 191, 143, 1, 207, 234, 65, 65, 64, 222, 93, 174, 34, 35,
                           176, 3, 97, 163, 150, 23, 122, 156, 180, 16, 255, 97, 242, 0, 21, 173] := by
  decide

/-- `toBytesBE` always yields exactly `numBytes` bytes. -/
theorem toBytesBE_length (numBytes n : Nat) : (toBytesBE numBytes n).length = numBytes := by
  simp [toBytesBE]

/-- Every entry of `toBytesBE` is a byte value. -/
theorem toBytesBE_mem_lt (numBytes n : Nat) : ∀ b ∈ toBytesBE numBytes n, b < 256 := by
  intro b hb
  simp only [toBytesBE, List.mem_map, List.mem_range] at hb
  obtain ⟨i, _, rfl⟩ := hb
  exact Nat.mod_lt _ (by norm_num)

/-- The serialized hash state is 32 bytes long. -/
theorem sha256digest_length (H : Hash8) : (sha256digest H).length = 32 := by
  simp [sha256digest, toBytesBE_length]

/-- A SHA-256 digest is 32 bytes long, whatever the message. -/
theorem sha256_length (msg : List Nat) : (sha256 msg).length = 32 := by
  simp [sha256, sha256digest_length]

/-- Every entry of a SHA-256 digest is a byte value. -/
theorem sha256_mem_lt (msg : List Nat) : ∀ b ∈ sha256 msg, b < 256 := by
  intro b hb
  simp only [sha256, sha256digest, List.mem_append] at hb
  rcases hb with ((((((h | h) | h) | h) | h) | h) | h) | h <;>
    exact toBytesBE_mem_lt _ _ _ h

/-- ASCII hexadecimal digit, as Rust's `char::is_ascii_hexdigit`. -/
def isAsciiHexDigit (c : Char) : Bool :=
  (48 ≤ c.toNat && c.toNat ≤ 57) || (97 ≤ c.toNat && c.toNat ≤ 102) ||
  (65 ≤ c.toNat && c.toNat ≤ 70)

/-- The hex digit of any value below 16 is an ASCII hex digit. -/
theorem hexDigitChar_isHex : ∀ n < 16, isAsciiHexDigit (hexDigitChar n) = true := by decide

/-- Hex encoding doubles the length. -/
theorem hexChars_length (bs : List Nat) : (hexChars bs).length = 2 * bs.length := by
  induction bs with
  | nil => rfl
  | cons b bs ih => simp [hexChars, ih]; omega

/-- Hex-encoding byte values yields only ASCII hex digits. -/
theorem hexChars_isHex (bs : List Nat) (hbs : ∀ b ∈ bs, b < 256) :
    ∀ c ∈ hexChars bs, isAsciiHexDigit c = true := by
  induction bs with
  | nil => intro c hc; simp [hexChars] at hc
  | cons b bs ih =>
    intro c hc
    have hb : b < 256 := hbs b (by simp)
    simp only [hexChars, List.mem_cons] at hc
    rcases hc with rfl | rfl | hc
    · exact hexDigitChar_isHex (b / 16) (by omega)
    · exact hexDigitChar_isHex (b % 16) (by omega)
    · exact ih (fun x hx => hbs x (by simp [hx])) c hc

/-- Claim C10: for every input string, `generate_project_hash` returns exactly
12 ASCII hexadecimal characters — the hex encoding of the first 6 bytes of
the SHA-256 digest of the input bytes (`generate_project_hash` is, by its
definition above, exactly that encoding; here its output shape is proved). -/
theorem generate_project_hash_hex_format (s : String) :
    (generate_project_hash s).length = 12 ∧
    ∀ c ∈ (generate_project_hash s).data, isAsciiHexDigit c = true := by
  constructor
  · show (hexChars ((sha256 (strBytes s)).take 6)).length = 12
    rw [hexChars_length, List.length_take, sha256_length]
    rfl
  · intro c hc
    have hc' : c ∈ hexChars ((sha256 (strBytes s)).take 6) := hc
    exact hexChars_isHex _ (fun b hb => sha256_mem_lt _ b (List.mem_of_mem_take hb)) c hc'

/-! ## Status Server (`src-tauri/src/core/status_server.rs`)

The session→project map (`Arc<RwLock<HashMap<u32, String>>>`) is embedded
as a function `Nat → Option String`; `register_session` and
`unregister_session` are the `HashMap` insert/remove, observed through
lookup.  The `axum` transport layer (JSON parsing) is outside the handler;
`handle_status` receives an already-parsed `StatusRequest` and returns the
HTTP status code together with the `SessionStatusPayload` it hands to
`app_handle.emit` — `none` when the report is dropped without a UI event. -/

/-- The deserialized body of a `POST /status` request (`StatusRequest`). -/
structure StatusRequest where
  session_id : Nat
  instance_id : String
  state : String
  message : String
  needs_input_prompt : Option String
  timestamp : String
deriving DecidableEq

/-- The payload emitted to the frontend (`SessionStatusPayload`). -/
structure SessionStatusPayload where
  session_id : Nat
  project_path : String
  status : String
  message : String
  needs_input_prompt : Option String
deriving DecidableEq

/-- The state shared with the HTTP handler (`ServerState`): the instance
identity and the session→project map. -/
structure ServerState where
  instance_id : String
  session_projects : Nat → Option String

/-- The HTTP status codes the embedded endpoint can produce: `200 OK` from
the handler, or a transport-layer rejection of malformed JSON. -/
inductive HttpCode where
  | OK
  | badRequest
deriving DecidableEq

/-- `StatusServer::register_session`: insert into the session→project map. -/
def register_session (projects : Nat → Option String) (session_id : Nat)
    (project_path : String) : Nat → Option String :=
  fun k => if k = session_id then some project_path else projects k

/-- `StatusServer::unregister_session`: remove from the session→project map. -/
def unregister_session (projects : Nat → Option String) (session_id : Nat) :
    Nat → Option String :=
  fun k => if k = session_id then none else projects k

/-- The wire-state → UI-status mapping inside `handle_status`
(status_server.rs:202-212): the five known states, `Unknown` otherwise. -/
def mapMcpState (s : String) : String :=
  if s = "idle" then "Idle"
  else if s = "working" then "Working"
  else if s = "needs_input" then "NeedsInput"
  else if s = "finished" then "Done"
  else if s = "error" then "Error"
  else "Unknown"

/-- `handle_status` (status_server.rs:159-237): drop (no event) on a wrong
instance id; drop (no event) on an unregistered session; otherwise map the
state and emit one `SessionStatusPayload`; every branch answers `200 OK`. -/
def handle_status (state : ServerState) (payload : StatusRequest) :
    HttpCode × Option SessionStatusPayload :=
  if payload.instance_id ≠ state.instance_id then
    (HttpCode.OK, none)
  else
    match state.session_projects payload.session_id with
    | none => (HttpCode.OK, none)
    | some project_path =>
      (HttpCode.OK, some {
        session_id := payload.session_id,
        project_path := project_path,
        status := mapMcpState payload.state,
        message := payload.message,
        needs_input_prompt := payload.needs_input_prompt })

/-- Claim C1: every well-formed status POST is answered `200 OK`, and a UI
event is emitted exactly when the payload's instance id equals the server's
identity and its session id has a registered project path; when either
check fails the report is dropped with no UI event while the sender still
receives success. -/
theorem handle_status_always_ok_and_event_iff (st : ServerState) (p : StatusRequest) :
    (handle_status st p).1 = HttpCode.OK ∧
    ((handle_status st p).2.isSome ↔
      p.instance_id = st.instance_id ∧ (st.session_projects p.session_id).isSome) := by
  unfold handle_status
  by_cases h : p.instance_id = st.instance_id
  · cases hm : st.session_projects p.session_id <;> simp [h, hm]
  · simp [h]

/-- Claim C2: after `register_session 7 "/tmp/proj"`, handling the payload
`{session_id := 7, instance_id := I, state := "working",
message := "compiling"}` on a server with identity `I` answers `200 OK` and
emits exactly one UI event `{session_id := 7, project_path := "/tmp/proj",
status := "Working", message := "compiling"}` (the `Option` result of
`handle_status` is the single event handed to `emit`). -/
theorem register_then_post_emits_working_event (I ts : String) (m : Nat → Option String) :
    handle_status ⟨I, register_session m 7 "/tmp/proj"⟩ ⟨7, I, "working", "compiling", none, ts⟩ =
      (HttpCode.OK, some ⟨7, "/tmp/proj", "Working", "compiling", none⟩) := by
  simp [handle_status, register_session, mapMcpState]

/-- Claim C3: for every payload that passes the instance and registration
checks, the emitted event carries `mapMcpState` of the wire state, and that
mapping sends `"idle"`, `"working"`, `"needs_input"`, `"finished"`,
`"error"` to `"Idle"`, `"Working"`, `"NeedsInput"`, `"Done"`, `"Error"`
and every other string to `"Unknown"`. -/
theorem handle_status_state_mapping (st : ServerState) (p : StatusRequest) (path : String)
    (h1 : p.instance_id = st.instance_id)
    (h2 : st.session_projects p.session_id = some path) :
    (handle_status st p).2 =
      some ⟨p.session_id, path, mapMcpState p.state, p.message, p.needs_input_prompt⟩ ∧
    mapMcpState "idle" = "Idle" ∧ mapMcpState "working" = "Working" ∧
    mapMcpState "needs_input" = "NeedsInput" ∧ mapMcpState "finished" = "Done" ∧
    mapMcpState "error" = "Error" ∧
    ∀ s : String, s ≠ "idle" → s ≠ "working" → s ≠ "needs_input" → s ≠ "finished" →
      s ≠ "error" → mapMcpState s = "Unknown" := by
  refine ⟨by simp [handle_status, h1, h2], by decide, by decide, by decide, by decide, by decide, ?_⟩
  intro s n1 n2 n3 n4 n5
  simp [mapMcpState, n1, n2, n3, n4, n5]

/-- Claim C3's theorem applied at a concrete server and payload. -/
theorem handle_status_state_mapping_witness :
    (handle_status ⟨"inst-a", fun k => if k = 3 then some "/p" else none⟩
        ⟨3, "inst-a", "finished", "build done", none, "2024-01-01T00:00:00Z"⟩).2 =
      some ⟨3, "/p", mapMcpState "finished", "build done", none⟩ :=
  (handle_status_state_mapping ⟨"inst-a", fun k => if k = 3 then some "/p" else none⟩
    ⟨3, "inst-a", "finished", "build done", none, "2024-01-01T00:00:00Z"⟩ "/p" rfl rfl).1

/-! ## Command layer (`src-tauri/src/commands/terminal.rs`)

The commands validate their inputs and then forward to the process
manager.  The process manager itself lives outside the staged sources, so
each command is embedded as a function returning either the typed error it
produced before delegating, or a `forwarded` value recording exactly the
call it hands to the process manager — session-id allocation and registry
insertion happen only inside the process manager, so a non-`forwarded`
outcome means no session id is allocated and no registry entry appears. -/

/-- Modelled from the spec: the process-manager error type `PtyError` is
declared outside the staged sources; the command layer constructs it via
the `spawn_failed` and `resize_failed` helpers, so those two constructors
(with their message) are embedded, and all its remaining variants are
collapsed into `other`. -/
inductive PtyError where
  | spawnFailed (message : String)
  | resizeFailed (message : String)
  | other (message : String)
deriving DecidableEq

/-- Outcome of the `resize_pty` command: a typed error produced before the
OS layer is touched, or the exact call forwarded to
`ProcessManager::resize_pty`. -/
inductive ResizeOutcome where
  | rejected (e : PtyError)
  | forwarded (session_id rows cols : Nat)
deriving DecidableEq

/-- `resize_pty` (terminal.rs:127-139): reject
`rows == 0 || cols == 0 || rows > 500 || cols > 500` with
`PtyError::resize_failed("Invalid dimensions")` before invoking the
process manager; `rows` and `cols` are `u16` values embedded as `Nat`. -/
def resize_pty (session_id rows cols : Nat) : ResizeOutcome :=
  if rows = 0 ∨ cols = 0 ∨ 500 < rows ∨ 500 < cols then
    ResizeOutcome.rejected (PtyError.resizeFailed "Invalid dimensions")
  else
    ResizeOutcome.forwarded session_id rows cols

/-- Claim C4: for every session id and dimensions, `resize_pty` returns the
invalid-dimensions error without invoking the process manager exactly when
`rows = 0 ∨ cols = 0 ∨ rows > 500 ∨ cols > 500`, and otherwise forwards
the call unchanged — so 0 and 501 are rejected while 1 and 500 pass. -/
theorem resize_pty_validation (sid rows cols : Nat) :
    (resize_pty sid rows cols = ResizeOutcome.rejected (PtyError.resizeFailed "Invalid dimensions") ↔
      rows = 0 ∨ cols = 0 ∨ 500 < rows ∨ 500 < cols) ∧
    (¬(rows = 0 ∨ cols = 0 ∨ 500 < rows ∨ 500 < cols) →
      resize_pty sid rows cols = ResizeOutcome.forwarded sid rows cols) := by
  by_cases h : rows = 0 ∨ cols = 0 ∨ 500 < rows ∨ 500 < cols <;>
    simp [resize_pty, h]

/-- The filesystem as the `spawn_shell` command consults it:
`Path::canonicalize` (an error message on failure) and `Path::is_dir`. -/
structure FileSystem where
  canonicalize : String → Except String String
  isDirectory : String → Bool

/-- Outcome of the `spawn_shell` command: a typed spawn error produced
before the process manager is invoked, or the canonicalized working
directory forwarded to `ProcessManager::spawn_shell`. -/
inductive SpawnOutcome where
  | failed (e : PtyError)
  | forwarded (canonical_cwd : Option String)
deriving DecidableEq

/-- `spawn_shell` (terminal.rs:87-111): with a `cwd` given, canonicalize it
(`spawn_failed` error mentioning the cwd and the OS error on failure),
require a directory (`spawn_failed` error otherwise), and only then
forward the canonical cwd to the process manager. -/
def spawn_shell (fs : FileSystem) (cwd : Option String) : SpawnOutcome :=
  match cwd with
  | none => SpawnOutcome.forwarded none
  | some dir =>
    match fs.canonicalize dir with
    | Except.error e =>
      SpawnOutcome.failed (PtyError.spawnFailed ("Invalid cwd " ++ dir ++ ": " ++ e))
    | Except.ok canonical =>
      if fs.isDirectory canonical then SpawnOutcome.forwarded (some canonical)
      else SpawnOutcome.failed (PtyError.spawnFailed ("cwd " ++ dir ++ " is not a directory"))

/-- Claim C5: for every `cwd` naming a nonexistent path (canonicalization
fails) or a non-directory, `spawn_shell` returns a descriptive spawn error
before the process manager is invoked — so no session id is allocated and
no registry entry is created. -/
theorem spawn_shell_invalid_cwd (fs : FileSystem) (dir : String)
    (h : (∃ e, fs.canonicalize dir = Except.error e) ∨
         (∃ c, fs.canonicalize dir = Except.ok c ∧ fs.isDirectory c = false)) :
    ∃ msg, spawn_shell fs (some dir) = SpawnOutcome.failed (PtyError.spawnFailed msg) := by
  rcases h with ⟨e, he⟩ | ⟨c, hc, hd⟩
  · exact ⟨"Invalid cwd " ++ dir ++ ": " ++ e, by simp [spawn_shell, he]⟩
  · exact ⟨"cwd " ++ dir ++ " is not a directory", by simp [spawn_shell, hc, hd]⟩

/-- Claim C5's theorem applied to a filesystem with no entries and the
path `/no/such/path`. -/
theorem spawn_shell_invalid_cwd_witness :
    ∃ msg, spawn_shell ⟨fun _ => Except.error "No such file or directory", fun _ => false⟩
        (some "/no/such/path") = SpawnOutcome.failed (PtyError.spawnFailed msg) :=
  spawn_shell_invalid_cwd ⟨fun _ => Except.error "No such file or directory", fun _ => false⟩
    "/no/such/path" (Or.inl ⟨"No such file or directory", rfl⟩)

/-- `kill_session` (terminal.rs:144-166): call
`ProcessManager::kill_session` (embedded as the caller-supplied `pmKill`,
since the process manager lives outside the staged sources), then
unregister the session from the status server unconditionally, and return
the process manager's result. -/
def kill_session_command (pmKill : Nat → Except PtyError Unit)
    (projects : Nat → Option String) (session_id : Nat) :
    Except PtyError Unit × (Nat → Option String) :=
  let result := pmKill session_id
  (result, unregister_session projects session_id)

/-- Claim C8: `kill_session` unregisters the session unconditionally — for
every process-manager outcome (including errors, which it returns
unchanged), the session has no entry in the status server afterwards, so a
subsequent status POST for that session emits no UI event. -/
theorem kill_session_unregisters (pmKill : Nat → Except PtyError Unit)
    (projects : Nat → Option String) (sid : Nat) :
    (kill_session_command pmKill projects sid).1 = pmKill sid ∧
    (kill_session_command pmKill projects sid).2 sid = none ∧
    ∀ (I : String) (p : StatusRequest), p.session_id = sid →
      (handle_status ⟨I, (kill_session_command pmKill projects sid).2⟩ p).2 = none := by
  refine ⟨rfl, by simp [kill_session_command, unregister_session], ?_⟩
  intro I p hp
  unfold handle_status
  by_cases h : p.instance_id = I <;>
    simp [h, kill_session_command, unregister_session, hp]

/-! ## Status Server startup (`find_and_bind_port`, `StatusServer::start`)

The OS outcome of attempting a bind is passed in as `bindable : Nat → Bool`
(the server keeps the successful listener, so attempting IS binding — there
is no separate check-then-bind step in the source, and none in the model). -/

/-- The loop body of `find_and_bind_port` (status_server.rs:60-68): try
`fuel` consecutive ports starting at `port`, returning the first whose
bind attempt succeeds. -/
def scanPorts (bindable : Nat → Bool) : Nat → Nat → Option Nat
  | _, 0 => none
  | port, fuel + 1 => if bindable port then some port else scanPorts bindable (port + 1) fuel

/-- `find_and_bind_port(range_start, range_end)`: iterate
`range_start..=range_end` in ascending order, keeping the first successful
bind. -/
def find_and_bind_port (bindable : Nat → Bool) (range_start range_end : Nat) : Option Nat :=
  scanPorts bindable range_start (range_end + 1 - range_start)

/-- `StatusServer::start` (status_server.rs:82-114): bind the first free
port in 9900–9999; `none` (the feature is disabled, nothing fails) when no
port in the range can be bound. -/
def statusServer_start (bindable : Nat → Bool) : Option Nat :=
  find_and_bind_port bindable 9900 9999

/-- `scanPorts` is `List.find?` over the ascending port window. -/
theorem scanPorts_eq_find (bindable : Nat → Bool) (fuel port : Nat) :
    scanPorts bindable port fuel = (List.range' port fuel).find? bindable := by
  induction fuel generalizing port with
  | zero => rfl
  | succ n ih =>
    rw [List.range'_succ]
    cases hb : bindable port <;> simp [scanPorts, hb, List.find?, ih]

/-- A successful `scanPorts` result is the least bindable port of the window. -/
theorem scanPorts_some (bindable : Nat → Bool) (fuel : Nat) :
    ∀ port p, scanPorts bindable port fuel = some p →
      port ≤ p ∧ p < port + fuel ∧ bindable p = true ∧
      ∀ q, port ≤ q → q < p → bindable q = false := by
  induction fuel with
  | zero => intro port p h; simp [scanPorts] at h
  | succ n ih =>
    intro port p h
    by_cases hb : bindable port
    · simp [scanPorts, hb] at h
      subst h
      exact ⟨le_refl _, by omega, hb, fun q hq1 hq2 => absurd hq1 (by omega)⟩
    · simp [scanPorts, hb] at h
      obtain ⟨h1, h2, h3, h4⟩ := ih (port + 1) p h
      refine ⟨by omega, by omega, h3, fun q hq1 hq2 => ?_⟩
      rcases Nat.eq_or_lt_of_le hq1 with rfl | hlt
      · exact Bool.eq_false_iff.mpr hb
      · exact h4 q (by omega) hq2

/-- `scanPorts` comes back empty exactly when no port of the window binds. -/
theorem scanPorts_none (bindable : Nat → Bool) (fuel : Nat) :
    ∀ port, scanPorts bindable port fuel = none ↔
      ∀ q, port ≤ q → q < port + fuel → bindable q = false := by
  induction fuel with
  | zero => intro port; simp [scanPorts]; intro q h1 h2; omega
  | succ n ih =>
    intro port
    by_cases hb : bindable port
    · simp only [scanPorts, hb, if_pos]
      constructor
      · intro h; exact absurd h (by simp)
      · intro h
        have := h port (le_refl _) (by omega)
        rw [hb] at this
        exact absurd this (by simp)
    · simp only [scanPorts, hb, if_neg, Bool.false_eq_true, not_false_iff]
      rw [ih (port + 1)]
      constructor
      · intro h q hq1 hq2
        rcases Nat.eq_or_lt_of_le hq1 with rfl | hlt
        · exact Bool.eq_false_iff.mpr hb
        · exact h q (by omega) (by omega)
      · intro h q hq1 hq2
        exact h q (by omega) (by omega)

/-- Claim C6: startup scans ports 9900–9999 in ascending order, attempting
an actual bind per candidate, and uses the first port whose bind succeeds
(`List.find?` over the ascending range); when a port is returned, every
smaller in-range port failed to bind; when no port in the range binds,
`start` returns no server — the feature is disabled instead of failing. -/
theorem statusServer_start_port_scan (bindable : Nat → Bool) :
    statusServer_start bindable = (List.range' 9900 100).find? bindable ∧
    (∀ p, statusServer_start bindable = some p →
      9900 ≤ p ∧ p ≤ 9999 ∧ bindable p = true ∧
      ∀ q, 9900 ≤ q → q < p → bindable q = false) ∧
    (statusServer_start bindable = none ↔
      ∀ q, 9900 ≤ q → q ≤ 9999 → bindable q = false) := by
  refine ⟨scanPorts_eq_find bindable 100 9900, ?_, ?_⟩
  · intro p h
    obtain ⟨h1, h2, h3, h4⟩ := scanPorts_some bindable 100 9900 p h
    exact ⟨h1, by omega, h3, h4⟩
  · rw [show statusServer_start bindable = scanPorts bindable 9900 100 from rfl,
        scanPorts_none bindable 100 9900]
    constructor
    · intro h q hq1 hq2; exact h q hq1 (by omega)
    · intro h q hq1 hq2; exact h q hq1 (by omega)

/-! ## Project hash of the canonical path (`src-tauri/src/commands/mcp.rs`)

The `generate_project_hash` command (mcp.rs:284-293) canonicalizes the
project path with `std::fs::canonicalize` and hashes the canonical path.
Its hash helper, `McpStatusMonitor::generate_project_hash`, lives outside
the staged sources; per the spec it is the same truncated content hash
that `StatusServer::generate_project_hash` (embedded above, from the
staged status_server.rs) computes, so the embedding uses that function. -/

/-- The `generate_project_hash` Tauri command: canonicalize, then hash the
canonical path (the hash of the canonical path is `generate_project_hash`
as modelled from the spec, see the section comment). -/
def mcp_generate_project_hash (fs : FileSystem) (project_path : String) :
    Except String String :=
  match fs.canonicalize project_path with
  | Except.error e =>
    Except.error ("Invalid project path " ++ project_path ++ ": " ++ e)
  | Except.ok canonical => Except.ok (generate_project_hash canonical)

/-- Claim C7: the project-hash operation is a pure function — embedded as a
Lean function it returns the same identifier on every call — and the
identifier is the truncated content hash (first 6 SHA-256 bytes, hex) of
the canonical path, so two spellings of the same canonical path yield the
same identifier. -/
theorem project_hash_of_canonical_path (fs : FileSystem) (p1 p2 c : String)
    (h1 : fs.canonicalize p1 = Except.ok c) (h2 : fs.canonicalize p2 = Except.ok c) :
    mcp_generate_project_hash fs p1 = Except.ok (generate_project_hash c) ∧
    generate_project_hash c = hexEncode ((sha256 (strBytes c)).take 6) ∧
    mcp_generate_project_hash fs p1 = mcp_generate_project_hash fs p2 := by
  unfold mcp_generate_project_hash
  rw [h1, h2]
  exact ⟨rfl, rfl, rfl⟩

/-- Claim C7's theorem applied to a filesystem on which both `/tmp/proj`
and `/tmp//proj` canonicalize to `/tmp/proj`. -/
theorem project_hash_of_canonical_path_witness :
    mcp_generate_project_hash ⟨fun _ => Except.ok "/tmp/proj", fun _ => true⟩ "/tmp/proj" =
      Except.ok (generate_project_hash "/tmp/proj") :=
  (project_hash_of_canonical_path ⟨fun _ => Except.ok "/tmp/proj", fun _ => true⟩
    "/tmp/proj" "/tmp//proj" "/tmp/proj" rfl rfl).1

/-! ## Status reporter (`maestro-mcp-server/src/status_reporter.rs`)

The helper process's reporter.  The HTTP POST is passed in as a function
`sendPost : String → StatusPayload → Except String Unit` consulted only
when a request is actually made; the model returns both the action taken
(no request, or the request with its payload) and the reported result. -/

/-- The payload the helper sends (`StatusPayload` in status_reporter.rs). -/
structure StatusPayload where
  session_id : Nat
  instance_id : String
  state : String
  message : String
  needs_input_prompt : Option String
  timestamp : String
deriving DecidableEq

/-- `StatusReporter` configuration as `StatusReporter::new` stores it. -/
structure StatusReporter where
  status_url : Option String
  session_id : Option Nat
  instance_id : Option String

/-- What one `report_status` call did on the network. -/
inductive ReportAction where
  | noRequest
  | request (url : String) (payload : StatusPayload)
deriving DecidableEq

/-- `report_status` (status_reporter.rs:54-99): with no status URL
configured, return `Ok` without any HTTP request (graceful degradation);
otherwise build the payload with `session_id.unwrap_or(0)` and
`instance_id.unwrap_or("unknown")` and POST it, returning the send's
result.  The timestamp (`chrono::Utc::now`) is passed in. -/
def report_status (sendPost : String → StatusPayload → Except String Unit)
    (r : StatusReporter) (state message : String) (needs_input_prompt : Option String)
    (timestamp : String) : ReportAction × Except String Unit :=
  match r.status_url with
  | none => (ReportAction.noRequest, Except.ok ())
  | some url =>
    let payload : StatusPayload :=
      { session_id := r.session_id.getD 0,
        instance_id := r.instance_id.getD "unknown",
        state := state, message := message,
        needs_input_prompt := needs_input_prompt, timestamp := timestamp }
    (ReportAction.request url payload, sendPost url payload)

/-- Claim C9: for every input, a reporter constructed with no status URL
performs no HTTP request and returns `Ok`; with a URL configured, the sent
payload uses `session_id.getD 0` and `instance_id.getD "unknown"` — in
particular session id `0` and instance id `"unknown"` when they are
absent. -/
theorem report_status_graceful_degradation
    (sendPost : String → StatusPayload → Except String Unit) (r : StatusReporter)
    (state message : String) (prompt : Option String) (ts : String) :
    (r.status_url = none →
      report_status sendPost r state message prompt ts =
        (ReportAction.noRequest, Except.ok ())) ∧
    (∀ url, r.status_url = some url →
      report_status sendPost r state message prompt ts =
        (ReportAction.request url
          ⟨r.session_id.getD 0, r.instance_id.getD "unknown", state, message, prompt, ts⟩,
         sendPost url
          ⟨r.session_id.getD 0, r.instance_id.getD "unknown", state, message, prompt, ts⟩)) ∧
    (∀ url, r.status_url = some url → r.session_id = none → r.instance_id = none →
      (report_status sendPost r state message prompt ts).1 =
        ReportAction.request url ⟨0, "unknown", state, message, prompt, ts⟩) := by
    refine ⟨fun h => by simp [report_status, h], fun url h => by simp [report_status, h], ?_⟩
    intro url h hs hi
    simp [report_status, h, hs, hi]

end Maestro
